import Mathlib

/-!
Verification of the avatar-demo audio pipeline and session orchestration.

The definitions below are a shallow embedding of the TypeScript source:
float samples are modelled as exact rationals, 16-bit PCM codes as integers,
byte buffers and base64 strings as lists of naturals (byte / character
codes), and the stateful React hooks as explicit state-transition
functions parameterised by the outcome of each external call.
-/

namespace AvatarDemo

/-! ## Audio codec (`audio.ts`) -/

/-- JS assignment into an `Int16Array` truncates the number toward zero
(for values already in the 16-bit range, as produced here). -/
def jsTrunc (q : ℚ) : ℤ := if q < 0 then ⌈q⌉ else ⌊q⌋

/-- The clamp `Math.max(-1, Math.min(1, x))` from `float32ToPCM16`. -/
def clamp1 (x : ℚ) : ℚ := max (-1) (min 1 x)

/-- One loop iteration of `float32ToPCM16`:
`s = Math.max(-1, Math.min(1, x)); pcm16[i] = s < 0 ? s * 0x8000 : s * 0x7fff`. -/
def encodeSample (x : ℚ) : ℤ :=
  let s := clamp1 x
  jsTrunc (if s < 0 then s * 32768 else s * 32767)

/-- `float32ToPCM16(float32Array)` from `audio.ts`. -/
def float32ToPCM16 (f : List ℚ) : List ℤ := f.map encodeSample

/-- One loop iteration of `pcm16ToFloat32`:
`float32[i] = pcm16[i] / (pcm16[i] < 0 ? 0x8000 : 0x7fff)`. -/
def decodeSample (n : ℤ) : ℚ := (n : ℚ) / (if n < 0 then 32768 else 32767)

/-- `pcm16ToFloat32(pcm16)` from `audio.ts`. -/
def pcm16ToFloat32 (l : List ℤ) : List ℚ := l.map decodeSample

/-! Base64 (`btoa` / `atob`), over byte lists and character-code lists.
`61` is the character code of the padding sign `=`. -/

/-- The base64 alphabet: sextet to character code. -/
def b64enc (s : ℕ) : ℕ :=
  if s < 26 then 65 + s
  else if s < 52 then 97 + (s - 26)
  else if s < 62 then 48 + (s - 52)
  else if s = 62 then 43
  else 47

/-- Character code back to sextet (inverse of the alphabet). -/
def b64dec (c : ℕ) : ℕ :=
  if 65 ≤ c ∧ c ≤ 90 then c - 65
  else if 97 ≤ c ∧ c ≤ 122 then c - 97 + 26
  else if 48 ≤ c ∧ c ≤ 57 then c - 48 + 52
  else if c = 43 then 62
  else if c = 47 then 63
  else 0

/-- `btoa` on a byte sequence: groups of three bytes become four characters,
a final group of one or two bytes is padded with `=` (code 61). -/
def btoaBytes : List ℕ → List ℕ
  | [] => []
  | [b1] => [b64enc (b1 / 4), b64enc (b1 % 4 * 16), 61, 61]
  | [b1, b2] => [b64enc (b1 / 4), b64enc (b1 % 4 * 16 + b2 / 16), b64enc (b2 % 16 * 4), 61]
  | b1 :: b2 :: b3 :: rest =>
      b64enc (b1 / 4) :: b64enc (b1 % 4 * 16 + b2 / 16) ::
      b64enc (b2 % 16 * 4 + b3 / 64) :: b64enc (b3 % 64) :: btoaBytes rest

/-- `atob` on a character-code sequence produced by `btoa`: each group of four
characters yields three bytes, with `=` padding cutting the final group short. -/
def atobChars : List ℕ → List ℕ
  | c1 :: c2 :: c3 :: c4 :: rest =>
      if c4 = 61 then
        if c3 = 61 then [b64dec c1 * 4 + b64dec c2 / 16]
        else [b64dec c1 * 4 + b64dec c2 / 16, b64dec c2 % 16 * 16 + b64dec c3 / 4]
      else
        (b64dec c1 * 4 + b64dec c2 / 16) ::
        (b64dec c2 % 16 * 16 + b64dec c3 / 4) ::
        (b64dec c3 % 4 * 64 + b64dec c4) :: atobChars rest
  | _ => []

/-- The little-endian byte pair of one `Int16Array` entry, as seen through
`new Uint8Array(pcm16.buffer)`. -/
def int16ToBytes (n : ℤ) : List ℕ := [(n % 65536).toNat % 256, (n % 65536).toNat / 256]

/-- The byte buffer underlying an `Int16Array`. -/
def pcm16Bytes (l : List ℤ) : List ℕ := (l.map int16ToBytes).flatten

/-- `pcm16ToBase64(pcm16)` from `audio.ts`: view the buffer bytes, `btoa`. -/
def pcm16ToBase64 (l : List ℤ) : List ℕ := btoaBytes (pcm16Bytes l)

/-- Reassemble little-endian byte pairs into signed 16-bit values, as
`new Int16Array(bytes.buffer)` reads them. -/
def bytesToInt16s : List ℕ → List ℤ
  | b1 :: b2 :: rest =>
      (if b1 + 256 * b2 < 32768 then ((b1 + 256 * b2 : ℕ) : ℤ)
       else ((b1 + 256 * b2 : ℕ) : ℤ) - 65536) :: bytesToInt16s rest
  | _ => []

/-- `base64ToPCM16(base64)` from `audio.ts`: `atob`, then view as `Int16Array`. -/
def base64ToPCM16 (s : List ℕ) : List ℤ := bytesToInt16s (atobChars s)

/-- `Math.round` on a nonnegative-or-any number: round half toward positive
infinity, `⌊q + 1/2⌋`. -/
def jsRound (q : ℚ) : ℤ := ⌊q + 1/2⌋

/-- `resampleAudio(audioData, fromSampleRate, toSampleRate)` from `audio.ts`:
identity when the rates agree, otherwise linear interpolation over
`round(length / (fromRate/toRate))` output samples, falling back to the floor
sample when the ceiling index would run past the end. -/
def resampleAudio (audioData : List ℚ) (fromSampleRate toSampleRate : ℚ) : List ℚ :=
  if fromSampleRate = toSampleRate then audioData
  else
    let rto := fromSampleRate / toSampleRate
    let newLength := (jsRound ((audioData.length : ℚ) / rto)).toNat
    (List.range newLength).map (fun (i : ℕ) =>
      let sourceIndex : ℚ := (i : ℚ) * rto
      let index : ℤ := ⌊sourceIndex⌋
      let fraction : ℚ := sourceIndex - (index : ℚ)
      if index + 1 < (audioData.length : ℤ) then
        audioData.getD index.toNat 0 * (1 - fraction) +
          audioData.getD (index.toNat + 1) 0 * fraction
      else
        audioData.getD index.toNat 0)

/-- `convertToMono(audioData, numberOfChannels)` from `audio.ts`. -/
def convertToMono (audioData : List ℚ) (numberOfChannels : ℕ) : List ℚ :=
  if numberOfChannels = 1 then audioData
  else
    let monoLength := audioData.length / numberOfChannels
    (List.range monoLength).map (fun i =>
      ((List.range numberOfChannels).map
        (fun ch => audioData.getD (i * numberOfChannels + ch) 0)).sum
        / (numberOfChannels : ℚ))

/-- `TARGET_SAMPLE_RATE` in `processAudioForOpenAI`. -/
def TARGET_SAMPLE_RATE : ℚ := 24000

/-- `processAudioForOpenAI(audioData, sampleRate, numberOfChannels)` from
`audio.ts`: mono, resample to 24kHz when needed, PCM16, base64. -/
def processAudioForOpenAI (audioData : List ℚ) (sampleRate : ℚ)
    (numberOfChannels : ℕ) : List ℕ :=
  let mono := convertToMono audioData numberOfChannels
  let mono' := if sampleRate ≠ TARGET_SAMPLE_RATE
    then resampleAudio mono sampleRate TARGET_SAMPLE_RATE else mono
  pcm16ToBase64 (float32ToPCM16 mono')

/-! ## The remote-audio → avatar silence gate (`useKaiSession`) -/

/-- `SILENCE_THRESHOLD = 0.01` in the remote-audio processor of `useKaiSession`. -/
def SILENCE_THRESHOLD : ℚ := 1/100

/-- The peak-amplitude loop of the remote-audio processor:
starts at 0, keeps the largest absolute sample seen. -/
def maxAmplitude (frame : List ℚ) : ℚ :=
  frame.foldl (fun m x => if |x| > m then |x| else m) 0

/-- The body of `processor.onaudioprocess` in `useKaiSession`: encode and
forward the frame to `sendAudioToAvatar` only when its peak amplitude is
strictly above `SILENCE_THRESHOLD`; otherwise drop it (`none`). The audio
context is constructed with `sampleRate: 24000` and one channel. -/
def remoteFrameToAvatar (frame : List ℚ) : Option (List ℕ) :=
  if maxAmplitude frame > SILENCE_THRESHOLD then
    some (processAudioForOpenAI frame 24000 1)
  else none

/-! ## Session state model

The React hooks are embedded as transition functions over an explicit
record of all the refs, `useState` cells and app-store fields the claims
mention. Asynchronous external calls (token fetch, SDK start, microphone
acquisition, SDP signaling) are parameterised by a boolean outcome. -/

/-- The `setSessionState` values written to the shared app store. -/
inductive SState
  | idle | connecting | connected | disconnected | err
deriving DecidableEq, Repr

/-- The combined state of `useHeygenSession`, `useOpenAIWebRTC`,
`useMicrophone`, the shared app store and `localStorage`. -/
structure KaiState where
  /-- `sessionRef.current` of `useHeygenSession` holds an SDK session object. -/
  heygenSdk : Bool
  /-- `sessionIdRef.current` of `useHeygenSession`. -/
  heygenSessionId : Option String
  /-- `heygenConnected` flag in the app store. -/
  heygenConnected : Bool
  /-- `isConnecting` state of `useHeygenSession`. -/
  heygenConnecting : Bool
  /-- `error` state of `useHeygenSession`. -/
  heygenError : Option String
  /-- `localStorage` entry under the key `liveavatar_session_id`. -/
  storedSessionId : Option String
  /-- `clientRef.current` of `useOpenAIWebRTC` (the id of the live client). -/
  openaiClient : Option ℕ
  /-- How many `OpenAIWebRTCClient` objects have been constructed. -/
  openaiClientsCreated : ℕ
  /-- `isConnecting` state of `useOpenAIWebRTC`. -/
  openaiConnecting : Bool
  /-- `isConnected` state of `useOpenAIWebRTC`. -/
  openaiConnected : Bool
  /-- `error` state of `useOpenAIWebRTC`. -/
  openaiError : Option String
  /-- `isActive` state of `useMicrophone`. -/
  micActive : Bool
  /-- `error` state of `useMicrophone`. -/
  micError : Option String
  /-- `sessionActive` flag in the app store (`useKaiSession`). -/
  sessionActive : Bool
  /-- `sessionState` in the app store (written by both remote controllers). -/
  storeState : SState
  /-- `error` in the app store. -/
  storeError : Option String
deriving DecidableEq, Repr

/-- The state before anything ran: all refs null, all flags false. -/
def initKai : KaiState :=
  ⟨false, none, false, false, none, none, none, 0, false, false, none,
   false, none, false, .idle, none⟩

/-- Error message on a failed token fetch in `useHeygenSession.startSession`. -/
def heygenTokenErrMsg : String := "Failed to start session"

/-- Error message when the avatar SDK `session.start()` rejects. -/
def heygenStartErrMsg : String := "heygen session start failed"

/-- The catch block of `useHeygenSession.startSession`: record the message
in the hook and the store, set the store state to `error`, stop the
connecting indicator. The error is not rethrown. -/
def heygenCatch (msg : String) (s : KaiState) : KaiState :=
  { s with heygenError := some msg, storeError := some msg,
           storeState := .err, heygenConnecting := false }

/-- `useHeygenSession.startSession`, with the outcome of the token fetch and
of the SDK `session.start()` call as parameters and `newId` the fresh
session id the backend returns. Mirrors the source order: reset
error/connecting state, reconcile an orphaned stored id, fetch a token,
create the SDK session (setting `sessionRef`), start it, then persist the
new id. All failures are caught inside the hook. -/
def heygenStart (tokenOk startOk : Bool) (newId : String) (s : KaiState) : KaiState :=
  let s1 := { s with heygenConnecting := true, storeState := .connecting,
                     heygenError := none, storeError := none }
  let s2 := if s1.storedSessionId.isSome
    then { s1 with storedSessionId := none } else s1
  if tokenOk then
    let s3 := { s2 with heygenSdk := true }
    if startOk then
      { s3 with heygenSessionId := some newId, storedSessionId := some newId }
    else heygenCatch heygenStartErrMsg s3
  else heygenCatch heygenTokenErrMsg s2

/-- `useHeygenSession.stopSession`: stop and drop the SDK session if present,
terminate the server session and clear the stored id if present, then reset
the connected flag, the store state and the store's session id. -/
def heygenStop (s : KaiState) : KaiState :=
  let s1 := if s.heygenSdk then { s with heygenSdk := false } else s
  let s2 := if s1.heygenSessionId.isSome
    then { s1 with heygenSessionId := none, storedSessionId := none } else s1
  { s2 with heygenConnected := false, storeState := .idle }

/-- Error message when microphone acquisition rejects. -/
def micErrMsg : String := "Failed to access microphone"

/-- `useMicrophone.startCapture`: on success activate the capture and return
normally; on failure record the error and rethrow it (`some` = the thrown
error). -/
def micStart (ok : Bool) (s : KaiState) : KaiState × Option String :=
  if ok then ({ s with micError := none, micActive := true }, none)
  else ({ s with micError := some micErrMsg }, some micErrMsg)

/-- `useMicrophone.stopCapture`. -/
def micStop (s : KaiState) : KaiState := { s with micActive := false }

/-- Error message when the SDP signaling exchange of `createCall` rejects. -/
def signalingErrMsg : String := "Failed to create OpenAI call"

/-- The synchronous prefix of `useOpenAIWebRTC.connect`, run before the first
`await`: clear errors, mark connecting, construct the `OpenAIWebRTCClient`
and store it in `clientRef`. -/
def connectBegin (s : KaiState) : KaiState :=
  { s with openaiConnecting := true, openaiError := none, storeError := none,
           storeState := .connecting,
           openaiClient := some s.openaiClientsCreated,
           openaiClientsCreated := s.openaiClientsCreated + 1 }

/-- The rest of `useOpenAIWebRTC.connect` after `createCall` settles: on
success return normally; on failure the catch block records the error, sets
the store state to `error` and drops the client ref — without rethrowing. -/
def connectFinish (signalingOk : Bool) (s : KaiState) : KaiState :=
  if signalingOk then s
  else { s with openaiError := some signalingErrMsg,
                storeError := some signalingErrMsg, storeState := .err,
                openaiConnecting := false, openaiClient := none }

/-- `useOpenAIWebRTC.connect`: a no-op when `clientRef.current` is already
set, otherwise the synchronous prefix followed by the `createCall` outcome.
`connect` never throws. -/
def connectOpenAI (signalingOk : Bool) (s : KaiState) : KaiState :=
  if s.openaiClient.isSome then s
  else connectFinish signalingOk (connectBegin s)

/-- `useOpenAIWebRTC.disconnect`: close and drop the client, reset the
connected flags and set the store state to `idle`. -/
def disconnectOpenAI (s : KaiState) : KaiState :=
  { s with openaiClient := none, openaiConnected := false,
           openaiConnecting := s.openaiConnecting, storeState := .idle }

/-- `useKaiSession.stopSession`: a failure-tolerant join of
`stopHeygenSession`, `disconnectOpenAI` and `stopMicrophone`, then
`setSessionActive(false)`. -/
def kaiStopSession (s : KaiState) : KaiState :=
  { micStop (disconnectOpenAI (heygenStop s)) with sessionActive := false }

/-- `useKaiSession.startSession`: `setSessionActive(true)`, start the avatar
session and the microphone, then connect the voice controller. Only a
thrown step reaches the catch block, which runs `stopSession` and rethrows
(the rethrown error is returned as `some`). -/
def kaiStartSession (tokenOk startOk micOk signalingOk : Bool) (newId : String)
    (s : KaiState) : KaiState × Option String :=
  let s1 := { s with sessionActive := true }
  let s2 := heygenStart tokenOk startOk newId s1
  match micStart micOk s2 with
  | (s3, some e) => (kaiStopSession s3, some e)
  | (s3, none) => (connectOpenAI signalingOk s3, none)

/-- The combined error surfaced by `useKaiSession`:
`heygenError || openaiError || microphoneError`. -/
def combinedError (s : KaiState) : Option String :=
  match s.heygenError with
  | some e => some e
  | none =>
    match s.openaiError with
    | some e => some e
    | none => s.micError

/-- The fully-unwound state the spec calls "fully Idle": no avatar SDK
session, no voice client, microphone inactive, session marked inactive, and
the store state `idle`. -/
def fullyIdle (s : KaiState) : Bool :=
  !s.heygenSdk && s.openaiClient.isNone && !s.micActive &&
    !s.sessionActive && s.storeState = .idle

/-! ## Effect trace of `useHeygenSession.startSession` (orphan cleanup order) -/

/-- The externally visible effects of `useHeygenSession.startSession`, in
program order. -/
inductive HgEvent
  /-- A `POST /api/stop-session` carrying a session id. -/
  | termCall (id : String)
  /-- `localStorage.removeItem('liveavatar_session_id')`. -/
  | clearStored
  /-- The `POST /api/start-session` token request. -/
  | tokenRequest
  /-- The SDK `session.start()` call. -/
  | sdkStart
  /-- Persisting the fresh session id (ref, `localStorage`, store). -/
  | persist (id : String)
deriving DecidableEq, Repr

/-- Whether an event is a remote termination call. -/
def HgEvent.isTermCall : HgEvent → Bool
  | .termCall _ => true
  | _ => false

/-- The effect trace of `useHeygenSession.startSession` given the
`localStorage` content and the outcomes of the token fetch and the SDK
start: orphan termination and removal first (only when an id was stored),
then the token request, then the SDK start, then persistence of the new id. -/
def heygenStartTrace (stored : Option String) (tokenOk startOk : Bool)
    (newId : String) : List HgEvent :=
  (match stored with
   | some sid => [.termCall sid, .clearStored]
   | none => []) ++
  [.tokenRequest] ++
  (if tokenOk then
    .sdkStart :: (if startOk then [.persist newId] else [])
   else [])

/-! ## `useHeygenSession.speak` -/

/-- A command forwarded to the avatar provider session. -/
inductive AvatarCmd
  /-- `sessionRef.current.repeat(text)` — verbatim speech. -/
  | repeatText (text : String)
deriving DecidableEq, Repr

/-- The error message `speak` throws with no session. -/
def speakNotInitializedMsg : String := "LiveAvatar session not initialized"

/-- `useHeygenSession.speak(text)`: throw `NotInitialized` when
`sessionRef.current` is null (no provider call is made), otherwise forward
the text verbatim to the provider. -/
def heygenSpeak (hasSession : Bool) (text : String) :
    Except String (List AvatarCmd) :=
  if hasSession then .ok [.repeatText text]
  else .error speakNotInitializedMsg

/-! ## Helper lemmas -/

/-- Reading a mapped list at an in-range position. -/
theorem getD_map_of_lt {α β : Type} (g : α → β) (l : List α) (i : ℕ) (d : β)
    (d' : α) (h : i < l.length) : (l.map g).getD i d = g (l.getD i d') := by
  rw [List.getD_eq_getElem?_getD, List.getD_eq_getElem?_getD,
    List.getElem?_map, List.getElem?_eq_getElem h]
  rfl

/-- Reading a map over `List.range` at an in-range position. -/
theorem getD_map_range {α : Type} (φ : ℕ → α) (n i : ℕ) (d : α) (h : i < n) :
    ((List.range n).map φ).getD i d = φ i := by
  rw [getD_map_of_lt φ (List.range n) i d 0 (by simpa using h)]
  congr 1
  rw [List.getD_eq_getElem?_getD, List.getElem?_range h]
  rfl

/-- The output length of `resampleAudio` when the rates differ. -/
theorem resampleAudio_length (a : List ℚ) (f t : ℚ) (h : f ≠ t) :
    (resampleAudio a f t).length = (jsRound ((a.length : ℚ) / (f / t))).toNat := by
  unfold resampleAudio
  rw [if_neg h]
  simp only [List.length_map, List.length_range]

/-! ## Claims -/

/-- C6: the PCM16 encoder maps `[0, 1, -1]` exactly to `[0, 32767, -32768]`,
and clamps any sample at or beyond `1` (resp. `-1`) to the same extremes. -/
theorem C6_pcm16_boundary_mapping :
    float32ToPCM16 [0, 1, -1] = [0, 32767, -32768] ∧
    ∀ x : ℚ, (1 ≤ x → encodeSample x = 32767) ∧
      (x ≤ -1 → encodeSample x = -32768) := by
  have hpos : ∀ x : ℚ, 1 ≤ x → encodeSample x = 32767 := by
    intro x h
    have hc : clamp1 x = 1 := by
      rw [clamp1, min_eq_left h]
      norm_num
    rw [encodeSample, hc]
    norm_num [jsTrunc]
  have hneg : ∀ x : ℚ, x ≤ -1 → encodeSample x = -32768 := by
    intro x h
    have hc : clamp1 x = -1 := by
      have hx : min 1 x = x := min_eq_right (by linarith)
      rw [clamp1, hx, max_eq_left h]
    rw [encodeSample, hc]
    rw [if_pos (by norm_num : (-1 : ℚ) < 0), jsTrunc,
      if_pos (by norm_num : (-1 : ℚ) * 32768 < 0),
      show (-1 : ℚ) * 32768 = ((-32768 : ℤ) : ℚ) by norm_num, Int.ceil_intCast]
  have h0 : encodeSample 0 = 0 := by
    have hc : clamp1 0 = 0 := by
      rw [clamp1]
      norm_num
    rw [encodeSample, hc]
    norm_num [jsTrunc]
  exact ⟨by simp [float32ToPCM16, h0, hpos 1 le_rfl, hneg (-1) le_rfl],
    fun x => ⟨hpos x, hneg x⟩⟩

/-- Witness for C6 at the concrete out-of-range inputs `2` and `-3`. -/
theorem C6_pcm16_boundary_mapping_witness :
    (1 : ℚ) ≤ 2 ∧ encodeSample 2 = 32767 ∧
      (-3 : ℚ) ≤ -1 ∧ encodeSample (-3) = -32768 :=
  ⟨by norm_num, (C6_pcm16_boundary_mapping.2 2).1 (by norm_num),
   by norm_num, (C6_pcm16_boundary_mapping.2 (-3)).2 (by norm_num)⟩

/-- C2 counterexample: a frame whose maximum absolute sample equals the
silence threshold exactly is dropped by the code, while the claim says a
frame at the threshold is forwarded. -/
theorem C2_threshold_frame_dropped :
    maxAmplitude [1/100] = SILENCE_THRESHOLD ∧
      remoteFrameToAvatar [1/100] = none := by
  have hm : maxAmplitude [1/100] = SILENCE_THRESHOLD := by
    rw [maxAmplitude, SILENCE_THRESHOLD]
    norm_num [abs_of_pos]
  refine ⟨hm, ?_⟩
  rw [remoteFrameToAvatar, hm, if_neg (lt_irrefl _)]

/-- C2 (amended): a frame is dropped iff its maximum absolute sample is at
or below the silence threshold; a frame strictly above the threshold is
encoded and forwarded to the avatar ingestion path. -/
theorem C2_silence_gate :
    ∀ frame : List ℚ,
      (maxAmplitude frame ≤ SILENCE_THRESHOLD → remoteFrameToAvatar frame = none) ∧
      (SILENCE_THRESHOLD < maxAmplitude frame →
        remoteFrameToAvatar frame = some (processAudioForOpenAI frame 24000 1)) := by
  intro frame
  constructor
  · intro h
    rw [remoteFrameToAvatar, if_neg (not_lt.mpr h)]
  · intro h
    rw [remoteFrameToAvatar, if_pos h]

/-- Witness for C2 at a loud one-sample frame. -/
theorem C2_silence_gate_witness :
    SILENCE_THRESHOLD < maxAmplitude [1/50] ∧
      remoteFrameToAvatar [1/50] = some (processAudioForOpenAI [1/50] 24000 1) := by
  have h : SILENCE_THRESHOLD < maxAmplitude [1/50] := by
    rw [maxAmplitude, SILENCE_THRESHOLD]
    norm_num [abs_of_pos]
  exact ⟨h, (C2_silence_gate [1/50]).2 h⟩

/-- C9: calling `speak` while no avatar session object exists throws the
`NotInitialized` error for every text, forwarding nothing to the provider. -/
theorem C9_speak_not_initialized :
    ∀ text : String, heygenSpeak false text = .error speakNotInitializedMsg :=
  fun _ => rfl

/-- C4: starting an avatar session with a stale persisted id issues exactly
one remote termination call, carrying that id, and both the call and the
clearing of the stored entry happen before the fresh-token request. -/
theorem C4_orphan_cleanup_order :
    ∀ (stale newId : String) (tokenOk startOk : Bool),
      (heygenStartTrace (some stale) tokenOk startOk newId).countP
        HgEvent.isTermCall = 1 ∧
      (heygenStartTrace (some stale) tokenOk startOk newId).take 3 =
        [.termCall stale, .clearStored, .tokenRequest] := by
  intro stale newId tokenOk startOk
  cases tokenOk <;> cases startOk <;>
    simp [heygenStartTrace, List.countP_cons, HgEvent.isTermCall]

/-- Witness for C4 on a concrete stale id and a fully successful start. -/
theorem C4_orphan_cleanup_order_witness :
    (heygenStartTrace (some "stale-1") true true "fresh-2").countP
        HgEvent.isTermCall = 1 ∧
      (heygenStartTrace (some "stale-1") true true "fresh-2").take 3 =
        [.termCall "stale-1", .clearStored, .tokenRequest] :=
  C4_orphan_cleanup_order "stale-1" "fresh-2" true true

/-- C5: a second `connect` while the first is still in progress (after its
synchronous prefix has stored the client) is a no-op, and after a
successful `connect` from a clientless state exactly one client object has
been created and a further `connect` changes nothing. -/
theorem C5_connect_idempotent :
    ∀ (s : KaiState) (ok1 ok2 : Bool),
      connectOpenAI ok2 (connectBegin s) = connectBegin s ∧
      (s.openaiClient = none →
        (connectOpenAI true s).openaiClientsCreated = s.openaiClientsCreated + 1 ∧
        connectOpenAI ok1 (connectOpenAI true s) = connectOpenAI true s) := by
  intro s ok1 ok2
  refine ⟨by simp [connectOpenAI, connectBegin], fun h => ?_⟩
  have h1 : connectOpenAI true s = connectBegin s := by
    simp [connectOpenAI, connectFinish, h]
  rw [h1]
  exact ⟨by simp [connectBegin], by simp [connectOpenAI, connectBegin]⟩

/-- Witness for C5 from the initial state. -/
theorem C5_connect_idempotent_witness :
    initKai.openaiClient = none ∧
      (connectOpenAI true initKai).openaiClientsCreated =
        initKai.openaiClientsCreated + 1 ∧
      connectOpenAI false (connectOpenAI true initKai) = connectOpenAI true initKai :=
  ⟨rfl, (C5_connect_idempotent initKai false true).2 rfl⟩

/-- Reading one output sample of `resampleAudio` when the rates differ. -/
theorem resampleAudio_getD (a : List ℚ) (f t : ℚ) (h : f ≠ t) (i : ℕ)
    (hi : i < (jsRound ((a.length : ℚ) / (f / t))).toNat) :
    (resampleAudio a f t).getD i 0 =
      (if ⌊(i : ℚ) * (f / t)⌋ + 1 < (a.length : ℤ) then
        a.getD (⌊(i : ℚ) * (f / t)⌋).toNat 0 *
            (1 - ((i : ℚ) * (f / t) - (⌊(i : ℚ) * (f / t)⌋ : ℚ))) +
          a.getD ((⌊(i : ℚ) * (f / t)⌋).toNat + 1) 0 *
            ((i : ℚ) * (f / t) - (⌊(i : ℚ) * (f / t)⌋ : ℚ))
      else a.getD (⌊(i : ℚ) * (f / t)⌋).toNat 0) := by
  unfold resampleAudio
  rw [if_neg h]
  exact getD_map_range _ _ i 0 hi

/-- C7: downsampling a 48000-sample frame from 48000Hz to 24000Hz yields
exactly 24000 samples, upsampling 24000 samples from 24000Hz to 48000Hz
yields exactly 48000, and in general the output length is
`round(inputLength / (fromRate/toRate))`. -/
theorem C7_resample_lengths :
    ∀ (a : List ℚ) (fromRate toRate : ℚ), fromRate ≠ toRate →
      (resampleAudio a fromRate toRate).length =
          (jsRound ((a.length : ℚ) / (fromRate / toRate))).toNat ∧
        (a.length = 48000 → (resampleAudio a 48000 24000).length = 24000) ∧
        (a.length = 24000 → (resampleAudio a 24000 48000).length = 48000) := by
  intro a fr tr h
  refine ⟨resampleAudio_length a fr tr h, fun h48 => ?_, fun h24 => ?_⟩
  · rw [resampleAudio_length a 48000 24000 (by norm_num), h48, jsRound]
    norm_num [Int.floor_eq_iff]
    rfl
  · rw [resampleAudio_length a 24000 48000 (by norm_num), h24, jsRound]
    norm_num [Int.floor_eq_iff]
    rfl

/-- Witness for C7 on a concrete 48000-sample frame. -/
theorem C7_resample_lengths_witness :
    (48000 : ℚ) ≠ 24000 ∧ (List.replicate 48000 (0 : ℚ)).length = 48000 ∧
      (resampleAudio (List.replicate 48000 (0 : ℚ)) 48000 24000).length = 24000 :=
  ⟨by norm_num, by rw [List.length_replicate],
    (C7_resample_lengths (List.replicate 48000 0) 48000 24000 (by norm_num)).2.1
      (by rw [List.length_replicate])⟩

/-- C10: for a non-empty input and positive, distinct sample rates, every
source index `resampleAudio` reads is strictly inside the input, and when
the ceiling index would reach past the last sample the output sample is
read from the floor index alone. -/
theorem C10_resample_reads_in_bounds :
    ∀ (a : List ℚ) (fromRate toRate : ℚ), 0 < fromRate → 0 < toRate →
      fromRate ≠ toRate → a ≠ [] →
      ∀ i, i < (resampleAudio a fromRate toRate).length →
        (⌊(i : ℚ) * (fromRate / toRate)⌋).toNat < a.length ∧
        (⌊(i : ℚ) * (fromRate / toRate)⌋ + 1 < (a.length : ℤ) ∨
          (resampleAudio a fromRate toRate).getD i 0 =
            a.getD (⌊(i : ℚ) * (fromRate / toRate)⌋).toNat 0) := by
  intro a fr tr hfr htr hne hnil i hi
  have hrpos : 0 < fr / tr := div_pos hfr htr
  rw [resampleAudio_length a fr tr hne] at hi
  have hiz : (i : ℤ) < jsRound ((a.length : ℚ) / (fr / tr)) := Int.lt_toNat.mp hi
  rw [jsRound] at hiz
  have h1 : (i : ℤ) + 1 ≤ ⌊(a.length : ℚ) / (fr / tr) + 1/2⌋ :=
    Int.add_one_le_iff.mpr hiz
  have h2 := Int.le_floor.mp h1
  push_cast at h2
  have hmul : (i : ℚ) * (fr / tr) < (a.length : ℚ) := by
    have h3 : (i : ℚ) ≤ (a.length : ℚ) / (fr / tr) - 1/2 := by linarith
    have h4 : (i : ℚ) * (fr / tr) ≤ ((a.length : ℚ) / (fr / tr) - 1/2) * (fr / tr) :=
      mul_le_mul_of_nonneg_right h3 hrpos.le
    have h5 : (a.length : ℚ) / (fr / tr) * (fr / tr) = (a.length : ℚ) :=
      div_mul_cancel₀ _ (ne_of_gt hrpos)
    nlinarith
  have hfl : ⌊(i : ℚ) * (fr / tr)⌋ < (a.length : ℤ) := by
    rw [Int.floor_lt]
    push_cast
    exact hmul
  have hfl0 : 0 ≤ ⌊(i : ℚ) * (fr / tr)⌋ :=
    Int.floor_nonneg.mpr (mul_nonneg (by positivity) hrpos.le)
  refine ⟨by omega, ?_⟩
  by_cases hc : ⌊(i : ℚ) * (fr / tr)⌋ + 1 < (a.length : ℤ)
  · exact Or.inl hc
  · exact Or.inr (by rw [resampleAudio_getD a fr tr hne i hi, if_neg hc])

/-- Witness for C10 on the frame `[1, 2]` downsampled 2:1, at output index 0. -/
theorem C10_resample_reads_in_bounds_witness :
    0 < (resampleAudio [(1 : ℚ), 2] 2 1).length ∧
      (⌊((0 : ℕ) : ℚ) * ((2 : ℚ) / 1)⌋).toNat < ([(1 : ℚ), 2] : List ℚ).length := by
  have h0 : 0 < (resampleAudio [(1 : ℚ), 2] 2 1).length := by
    rw [resampleAudio_length _ _ _ (by norm_num : (2 : ℚ) ≠ 1), jsRound]
    norm_num [Int.floor_eq_iff]
  exact ⟨h0, (C10_resample_reads_in_bounds [(1 : ℚ), 2] 2 1 (by norm_num) (by norm_num)
    (by norm_num) (by simp) 0 h0).1⟩

/-- One-sample encode/decode round trip stays within `1/32767`. -/
theorem roundtrip_sample (x : ℚ) (h1 : -1 ≤ x) (h2 : x ≤ 1) :
    |decodeSample (encodeSample x) - x| ≤ 1/32767 := by
  have hc : clamp1 x = x := by
    rw [clamp1, min_eq_right h2, max_eq_right h1]
  simp only [encodeSample, hc]
  by_cases hx : x < 0
  · rw [if_pos hx, jsTrunc, if_pos (by nlinarith : x * 32768 < 0)]
    have hle : x * 32768 ≤ (⌈x * 32768⌉ : ℚ) := Int.le_ceil _
    have hlt : (⌈x * 32768⌉ : ℚ) < x * 32768 + 1 := Int.ceil_lt_add_one _
    by_cases hn : ⌈x * 32768⌉ < 0
    · rw [decodeSample, if_pos hn, abs_le]
      constructor <;> linarith
    · have hn0 : ⌈x * 32768⌉ = 0 := by
        have hnp : ⌈x * 32768⌉ ≤ 0 := Int.ceil_le.mpr (by push_cast; nlinarith)
        omega
      rw [decodeSample, hn0]
      rw [hn0] at hlt
      norm_num at hlt ⊢
      rw [abs_le]
      constructor <;> linarith
  · have hx' : 0 ≤ x := not_lt.mp hx
    rw [if_neg hx, jsTrunc, if_neg (not_lt.mpr (by positivity : (0:ℚ) ≤ x * 32767))]
    have hle : (⌊x * 32767⌋ : ℚ) ≤ x * 32767 := Int.floor_le _
    have hlt : x * 32767 < (⌊x * 32767⌋ : ℚ) + 1 := Int.lt_floor_add_one _
    have hn : ¬ ⌊x * 32767⌋ < 0 :=
      not_lt.mpr (Int.floor_nonneg.mpr (by positivity))
    rw [decodeSample, if_neg hn, abs_le]
    constructor <;> linarith

/-- C3 counterexample: a frame with all samples in `[-1, 1]` whose
decode-of-encode differs from the original by strictly more than
`1/32768`. -/
theorem C3_roundtrip_bound_exceeded :
    (∀ x ∈ [(65535 : ℚ)/2147418112], -1 ≤ x ∧ x ≤ 1) ∧
      ¬ |(pcm16ToFloat32 (float32ToPCM16 [(65535 : ℚ)/2147418112])).getD 0 0 -
          ([(65535 : ℚ)/2147418112]).getD 0 0| ≤ 1/32768 := by
  constructor
  · intro x hx
    rw [List.mem_singleton] at hx
    subst hx
    constructor <;> norm_num
  · have hcl : clamp1 ((65535 : ℚ)/2147418112) = (65535 : ℚ)/2147418112 := by
      rw [clamp1, min_eq_right (by norm_num), max_eq_right (by norm_num)]
    have henc : encodeSample ((65535 : ℚ)/2147418112) = 0 := by
      simp only [encodeSample, hcl]
      rw [if_neg (by norm_num : ¬ ((65535 : ℚ)/2147418112) < 0), jsTrunc,
        if_neg (by norm_num : ¬ ((65535 : ℚ)/2147418112) * 32767 < 0),
        show ((65535 : ℚ)/2147418112) * 32767 = 65535/65536 by norm_num]
      norm_num [Int.floor_eq_zero_iff]
    rw [float32ToPCM16, List.map_cons, List.map_nil, henc,
      pcm16ToFloat32, List.map_cons, List.map_nil,
      List.getD_cons_zero, List.getD_cons_zero,
      decodeSample, if_neg (by norm_num : ¬ (0 : ℤ) < 0)]
    norm_num
    rw [abs_of_pos (by norm_num : (0:ℚ) < 65535/2147418112)]
    norm_num

/-- C3 (amended): for every frame with samples in `[-1, 1]`, decoding the
encoding preserves the length and reproduces each sample to within
`1/32767` (the bound `1/32768` fails, see the counterexample). -/
theorem C3_pcm16_roundtrip_within_tolerance :
    ∀ f : List ℚ, (∀ x ∈ f, -1 ≤ x ∧ x ≤ 1) →
      (pcm16ToFloat32 (float32ToPCM16 f)).length = f.length ∧
      ∀ i, i < f.length →
        |(pcm16ToFloat32 (float32ToPCM16 f)).getD i 0 - f.getD i 0| ≤ 1/32767 := by
  intro f hf
  constructor
  · rw [pcm16ToFloat32, float32ToPCM16, List.length_map, List.length_map]
  · intro i hi
    rw [pcm16ToFloat32, float32ToPCM16, List.map_map,
      getD_map_of_lt (decodeSample ∘ encodeSample) f i 0 0 hi]
    have hmem : f.getD i 0 ∈ f := by
      rw [List.getD_eq_getElem?_getD, List.getElem?_eq_getElem hi, Option.getD_some]
      exact List.getElem_mem hi
    obtain ⟨ha, hb⟩ := hf _ hmem
    exact roundtrip_sample _ ha hb

/-- Witness for C3 on the frame `[1/2]`. -/
theorem C3_pcm16_roundtrip_within_tolerance_witness :
    (∀ x ∈ [(1 : ℚ)/2], -1 ≤ x ∧ x ≤ 1) ∧
      |(pcm16ToFloat32 (float32ToPCM16 [(1 : ℚ)/2])).getD 0 0 -
        ([(1 : ℚ)/2]).getD 0 0| ≤ 1/32767 := by
  have hf : ∀ x ∈ [(1 : ℚ)/2], -1 ≤ x ∧ x ≤ 1 := by
    intro x hx
    rw [List.mem_singleton] at hx
    subst hx
    constructor <;> norm_num
  exact ⟨hf, (C3_pcm16_roundtrip_within_tolerance [(1 : ℚ)/2] hf).2 0 (by simp)⟩

/-! ## Base64 round trip -/

/-- The alphabet stays below 64 → character codes invert exactly. -/
theorem b64dec_enc : ∀ s : ℕ, s < 64 → b64dec (b64enc s) = s := by
  decide

/-- The alphabet never emits the padding character code 61. -/
theorem b64enc_ne_61 : ∀ s : ℕ, s < 64 → b64enc s ≠ 61 := by
  decide

/-- `atob` inverts `btoa` on every byte sequence. -/
theorem atob_btoa : ∀ bs : List ℕ, (∀ b ∈ bs, b < 256) →
    atobChars (btoaBytes bs) = bs
  | [], _ => rfl
  | [b1], h => by
      have hb1 : b1 < 256 := h b1 (by simp)
      simp only [btoaBytes, atobChars, if_true]
      rw [b64dec_enc _ (by omega), b64dec_enc _ (by omega)]
      simp only [List.cons.injEq, and_true]
      omega
  | [b1, b2], h => by
      have hb1 : b1 < 256 := h b1 (by simp)
      have hb2 : b2 < 256 := h b2 (by simp)
      simp only [btoaBytes, atobChars, if_true]
      rw [if_neg (b64enc_ne_61 _ (by omega)),
        b64dec_enc _ (by omega), b64dec_enc _ (by omega), b64dec_enc _ (by omega)]
      simp only [List.cons.injEq, and_true]
      omega
  | b1 :: b2 :: b3 :: rest, h => by
      have hb1 : b1 < 256 := h b1 (by simp)
      have hb2 : b2 < 256 := h b2 (by simp)
      have hb3 : b3 < 256 := h b3 (by simp)
      have ih := atob_btoa rest (fun b hb => h b (by simp [hb]))
      simp only [btoaBytes, atobChars]
      rw [if_neg (b64enc_ne_61 _ (by omega)),
        b64dec_enc _ (by omega), b64dec_enc _ (by omega),
        b64dec_enc _ (by omega), b64dec_enc _ (by omega), ih]
      simp only [List.cons.injEq]
      refine ⟨by omega, by omega, by omega, trivial⟩

/-- The buffer bytes of an `Int16Array`, one entry at a time. -/
theorem pcm16Bytes_cons (n : ℤ) (t : List ℤ) :
    pcm16Bytes (n :: t) = int16ToBytes n ++ pcm16Bytes t := by
  rw [pcm16Bytes, List.map_cons, List.flatten_cons]
  rfl

/-- Every buffer byte is below 256. -/
theorem pcm16Bytes_lt (l : List ℤ) : ∀ b ∈ pcm16Bytes l, b < 256 := by
  induction l with
  | nil => intro b hb; simp [pcm16Bytes] at hb
  | cons n t ih =>
      intro b hb
      rw [pcm16Bytes_cons, List.mem_append] at hb
      rcases hb with hb | hb
      · rw [int16ToBytes] at hb
        simp only [List.mem_cons, List.not_mem_nil, or_false] at hb
        have hm : (n % 65536).toNat < 65536 := by omega
        rcases hb with hb | hb <;> omega
      · exact ih b hb

/-- Reading the little-endian buffer back recovers each in-range value. -/
theorem bytes_roundtrip (l : List ℤ) (h : ∀ x ∈ l, -32768 ≤ x ∧ x ≤ 32767) :
    bytesToInt16s (pcm16Bytes l) = l := by
  induction l with
  | nil => rfl
  | cons n t ih =>
      obtain ⟨h1, h2⟩ := h n (by simp)
      rw [pcm16Bytes_cons, int16ToBytes, List.cons_append, List.cons_append,
        List.nil_append, bytesToInt16s, ih (fun x hx => h x (by simp [hx]))]
      simp only [List.cons.injEq, and_true]
      split_ifs with hv <;> omega

/-- C8: decoding the base64 encoding of any PCM16 buffer returns the buffer
byte-for-byte: same length, same entries. -/
theorem C8_base64_roundtrip :
    ∀ a : List ℤ, (∀ x ∈ a, -32768 ≤ x ∧ x ≤ 32767) →
      base64ToPCM16 (pcm16ToBase64 a) = a := by
  intro a h
  rw [base64ToPCM16, pcm16ToBase64, atob_btoa _ (pcm16Bytes_lt a),
    bytes_roundtrip a h]

/-- Witness for C8 on a concrete buffer containing both extremes. -/
theorem C8_base64_roundtrip_witness :
    (∀ x ∈ [(0 : ℤ), 32767, -32768, 1000, -1000], -32768 ≤ x ∧ x ≤ 32767) ∧
      base64ToPCM16 (pcm16ToBase64 [(0 : ℤ), 32767, -32768, 1000, -1000]) =
        [(0 : ℤ), 32767, -32768, 1000, -1000] :=
  ⟨by decide, C8_base64_roundtrip _ (by decide)⟩

/-! ## Orchestrator start/stop behaviour -/

/-- `useKaiSession.stopSession` always lands in the fully idle combined
state, whatever state it starts from. -/
theorem kaiStopSession_fullyIdle (t : KaiState) :
    fullyIdle (kaiStopSession t) = true := by
  rw [kaiStopSession, heygenStop]
  split_ifs <;> simp_all [disconnectOpenAI, micStop, fullyIdle]

/-- `useKaiSession.stopSession` leaves the microphone error untouched. -/
theorem kaiStopSession_micError (t : KaiState) :
    (kaiStopSession t).micError = t.micError := by
  rw [kaiStopSession, heygenStop]
  split_ifs <;> rfl

/-- A recorded microphone error makes the combined error non-null. -/
theorem combinedError_isSome_of_mic (t : KaiState) (m : String)
    (h : t.micError = some m) : (combinedError t).isSome = true := by
  rw [combinedError]
  cases hh : t.heygenError <;> cases ho : t.openaiError <;> simp [h]

/-- C1 counterexample: when voice signaling fails after the avatar session
and the microphone both succeeded, `startSession` returns normally (no
rethrow), no `stopSession` unwind happens — the avatar session is still
live, the session is still marked active, the combined state is not fully
Idle (it sits in `error`), even though the combined error is set. -/
theorem C1_signaling_failure_not_unwound :
    (kaiStartSession true true true false "sid-1" initKai).2 = none ∧
      (kaiStartSession true true true false "sid-1" initKai).1.heygenSdk = true ∧
      (kaiStartSession true true true false "sid-1" initKai).1.sessionActive = true ∧
      fullyIdle (kaiStartSession true true true false "sid-1" initKai).1 = false ∧
      (kaiStartSession true true true false "sid-1" initKai).1.storeState = .err ∧
      combinedError (kaiStartSession true true true false "sid-1" initKai).1 =
        some signalingErrMsg := by
  decide

/-- C1 (amended): only a step that throws inside `startSession` — the
microphone acquisition — triggers the full `stopSession` unwind and the
rethrow, leaving the combined state fully Idle with the combined error
set. A voice-signaling failure is caught inside the voice controller's
`connect`, which records the error and the `error` session state without
throwing, so `startSession` returns normally with the avatar session still
running and the session still marked active. -/
theorem C1_start_unwind_policy :
    ∀ (s : KaiState) (tokenOk startOk sOk : Bool) (newId : String),
      ((kaiStartSession tokenOk startOk false sOk newId s).2 = some micErrMsg ∧
        fullyIdle (kaiStartSession tokenOk startOk false sOk newId s).1 = true ∧
        (combinedError (kaiStartSession tokenOk startOk false sOk newId s).1).isSome
          = true) ∧
      (s.openaiClient = none →
        (kaiStartSession true true true false newId s).2 = none ∧
        (kaiStartSession true true true false newId s).1.heygenSdk = true ∧
        (kaiStartSession true true true false newId s).1.sessionActive = true ∧
        (kaiStartSession true true true false newId s).1.storeState = .err ∧
        (kaiStartSession true true true false newId s).1.openaiError =
          some signalingErrMsg) := by
  intro s tokenOk startOk sOk newId
  constructor
  · have hmic : kaiStartSession tokenOk startOk false sOk newId s =
        (kaiStopSession
          { heygenStart tokenOk startOk newId { s with sessionActive := true } with
            micError := some micErrMsg }, some micErrMsg) := by
      rw [kaiStartSession, micStart]
      simp
    rw [hmic]
    exact ⟨rfl, kaiStopSession_fullyIdle _,
      combinedError_isSome_of_mic _ micErrMsg (by rw [kaiStopSession_micError])⟩
  · intro h
    cases hs : s.storedSessionId <;>
      simp [kaiStartSession, heygenStart, micStart, connectOpenAI, connectBegin,
        connectFinish, h, hs]

/-- Witness for C1 from the initial state. -/
theorem C1_start_unwind_policy_witness :
    initKai.openaiClient = none ∧
      (kaiStartSession true true false true "w" initKai).2 = some micErrMsg ∧
      fullyIdle (kaiStartSession true true false true "w" initKai).1 = true ∧
      (kaiStartSession true true true false "w" initKai).2 = none :=
  ⟨rfl, ((C1_start_unwind_policy initKai true true true "w").1).1,
    ((C1_start_unwind_policy initKai true true true "w").1).2.1,
    ((C1_start_unwind_policy initKai true true true "w").2 rfl).1⟩

end AvatarDemo
